import Mathlib

/-!
# SimpleOCIManager (driver/oci_simple.go)

A shallow embedding of `driver/oci_simple.go`: the OCI image manager that
pulls an image with external tools and builds an ext4 root filesystem from it.

Every interaction with the host (external processes, the file system, the
search path, the logger) is a request answered by an `Env`; each function
returns its Go result together with the chronological list of the events it
caused. No path of a call makes the same request twice, so an `Env` that
answers by request represents every combination of outcomes of the steps of a
call. A Go `error` is modelled by its text, `nil` by `none`.
-/

namespace Firevm

/-! ## Data model -/

/-- The constant `defaultRootfsSize`. -/
def defaultRootfsSize : String := "1G"

/-- The credentials `*OCIAuth`; a nil pointer is `none : Option OCIAuth`. -/
structure OCIAuth where
  Username : String
  Password : String
  deriving DecidableEq, Repr

/-- The fields of `SimpleOCIManager` other than the logger. -/
structure SimpleOCIManager where
  tempDir : String
  workDir : String
  deriving DecidableEq, Repr

/-- What a finished external process gives back: the error of `Run` (`none` for
exit status 0), its standard output, and its combined standard output and error. -/
structure CmdResult where
  err : Option String
  stdout : String
  combined : String
  deriving DecidableEq, Repr

/-- One observable interaction with the host. -/
inductive Event where
  | log (level msg : String) (kv : List String)
  | lookPath (cmd : String) (found : Bool)
  | run (argv : List String) (stdin : Option String) (res : CmdResult)
  | start (argv : List String) (err : Option String)
  | wait (argv : List String) (err : Option String)
  | mkdirAll (path : String) (err : Option String)
  | removeAll (path : String) (err : Option String)
  | readFile (path : String) (err : Option String) (data : String)
  deriving DecidableEq, Repr

/-- The host and the library functions the code calls. `exec argv stdin` is the outcome of
running the process `argv` to its end, `start` and `wait` are the errors of the methods
`Start` and `Wait` of an `exec.Cmd`, `sscanfD s` is `fmt.Sscanf(s, "%d", &v)` (the scanned
value or the error text) and `trimSpace` is `strings.TrimSpace`. -/
structure Env where
  pid : Int
  lookPath : String → Bool
  exec : List String → Option String → CmdResult
  start : List String → Option String
  wait : List String → Option String
  mkdirAll : String → Option String
  removeAll : String → Option String
  readFile : String → Option String × String
  sscanfD : String → Except String Int
  trimSpace : String → String

/-! ## Library functions with a fixed meaning -/

/-- The text `fmt.Sprintf("%d", n)` prints for an integer. -/
def sprintfD : Int → String
  | Int.ofNat k => Nat.repr k
  | Int.negSucc k => "-" ++ Nat.repr (k + 1)

/-- The value of `filepath.Join(dir, name)` for a clean, non-empty `dir` that is not
the root, as `os.MkdirTemp` returns it, and a plain file name. -/
def filepathJoin (dir name : String) : String := dir ++ "/" ++ name

/-- Reduction of an integer to the range of `int64` (two's complement wrap-around). -/
def wrapInt64 (x : Int) : Int := (x + 2 ^ 63) % 2 ^ 64 - 2 ^ 63

/-! ## Host requests, with their event -/

/-- The method `Run`, `Output` or `CombinedOutput` of an `exec.Cmd`: the process runs to
its end; the caller picks the fields of the result its method returns. -/
def runCmd (env : Env) (argv : List String) (stdin : Option String) :
    CmdResult × List Event :=
  (env.exec argv stdin, [Event.run argv stdin (env.exec argv stdin)])

/-- The method `Start` of an `exec.Cmd`. -/
def startCmd (env : Env) (argv : List String) : Option String × List Event :=
  (env.start argv, [Event.start argv (env.start argv)])

/-- The method `Wait` of an `exec.Cmd`. -/
def waitCmd (env : Env) (argv : List String) : Option String × List Event :=
  (env.wait argv, [Event.wait argv (env.wait argv)])

/-- The call `os.MkdirAll(path, 0755)`. -/
def osMkdirAll (env : Env) (path : String) : Option String × List Event :=
  (env.mkdirAll path, [Event.mkdirAll path (env.mkdirAll path)])

/-- The call `os.RemoveAll(path)`. -/
def osRemoveAll (env : Env) (path : String) : Option String × List Event :=
  (env.removeAll path, [Event.removeAll path (env.removeAll path)])

/-- The call `os.ReadFile(path)`. -/
def osReadFile (env : Env) (path : String) : (Option String × String) × List Event :=
  (env.readFile path, [Event.readFile path (env.readFile path).1 (env.readFile path).2])

/-! ## The size estimator -/

/-- Line 270: `sizeBytes = sizeBytes + (sizeBytes / 5)` on `int64`. -/
def addOverhead (sizeBytes : Int) : Int :=
  wrapInt64 (sizeBytes + Int.tdiv sizeBytes 5)

/-- Line 271: `sizeMB := (sizeBytes / (100 * 1024 * 1024) + 1) * 100` on `int64`, applied
to the size with its overhead. -/
def sizeMB (sizeBytes : Int) : Int :=
  wrapInt64 (wrapInt64 (Int.tdiv (addOverhead sizeBytes) (100 * 1024 * 1024) + 1) * 100)

/-- Lines 269-273: the size string for a scanned `sizeBytes`. -/
def sizeString (sizeBytes : Int) : String :=
  sprintfD (sizeMB sizeBytes) ++ "M"

/-- The method `calculateImageSize`: the size string, or the error of `du` or of the scan. -/
def calculateImageSize (env : Env) (_m : SimpleOCIManager) (sourceDir : String) :
    Except String String × List Event :=
  let r := runCmd env ["du", "-sb", sourceDir] none
  match r.1.err with
  | some e => (Except.error e, r.2)
  | none =>
    match env.sscanfD r.1.stdout with
    | Except.error e => (Except.error e, r.2)
    | Except.ok sizeBytes => (Except.ok (sizeString sizeBytes), r.2)

/-! ## The filesystem builder -/

/-- Line 239: `mountDir := filepath.Join(m.tempDir, "mount")`. -/
def mountDir (m : SimpleOCIManager) : String := filepathJoin m.tempDir "mount"

/-- Lines 69, 138 and 187: `extractDir := filepath.Join(m.tempDir, "extract")`. -/
def extractDir (m : SimpleOCIManager) : String := filepathJoin m.tempDir "extract"

/-- Lines 228-254 of `createExt4Image`: the build steps once `size` is fixed. The deferred
`umount` runs when the function returns after a successful mount. -/
def createExt4ImageSized (env : Env) (m : SimpleOCIManager) (size sourceDir outputPath : String) :
    Option String × List Event :=
  let r1 := runCmd env ["fallocate", "-l", size, outputPath] none
  match r1.1.err with
  | some e => (some ("failed to create image file: " ++ e), r1.2)
  | none =>
    let r2 := runCmd env ["mkfs.ext4", "-F", outputPath] none
    match r2.1.err with
    | some e => (some ("failed to format ext4: " ++ e), r1.2 ++ r2.2)
    | none =>
      let r3 := osMkdirAll env (mountDir m)
      match r3.1 with
      | some e => (some ("failed to create mount directory: " ++ e), r1.2 ++ r2.2 ++ r3.2)
      | none =>
        let r4 := runCmd env ["mount", "-o", "loop", outputPath, mountDir m] none
        match r4.1.err with
        | some e => (some ("failed to mount image: " ++ e), r1.2 ++ r2.2 ++ r3.2 ++ r4.2)
        | none =>
          let r5 := runCmd env ["cp", "-a", sourceDir ++ "/.", mountDir m ++ "/"] none
          let ret : Option String :=
            match r5.1.err with
            | some e => some ("failed to copy contents: " ++ e)
            | none => none
          let r6 := runCmd env ["umount", mountDir m] none
          (ret, r1.2 ++ r2.2 ++ r3.2 ++ r4.2 ++ r5.2 ++ r6.2)

/-- The method `createExt4Image`. -/
def createExt4Image (env : Env) (m : SimpleOCIManager) (sourceDir outputPath : String) :
    Option String × List Event :=
  let s := calculateImageSize env m sourceDir
  match s.1 with
  | Except.error e =>
    let b := createExt4ImageSized env m defaultRootfsSize sourceDir outputPath
    (b.1, s.2 ++ [Event.log "warn" "failed to calculate size, using default" ["error", e]] ++ b.2)
  | Except.ok size =>
    let b := createExt4ImageSized env m size sourceDir outputPath
    (b.1, s.2 ++ b.2)

/-! ## The backends -/

/-- The condition `auth != nil && auth.Username != "" && auth.Password != ""`. -/
def hasCreds : Option OCIAuth → Bool
  | none => false
  | some a => a.Username != "" && a.Password != ""

/-- The text `auth.Username+":"+auth.Password`, read only when `hasCreds` holds. -/
def credsOf : Option OCIAuth → String
  | none => ""
  | some a => a.Username ++ ":" ++ a.Password

/-- The container name `fmt.Sprintf("firecracker-extract-%d", os.Getpid())`. -/
def containerName (env : Env) : String := "firecracker-extract-" ++ sprintfD env.pid

/-- The arguments of the skopeo pull command (lines 77-85). -/
def skopeoArgv (m : SimpleOCIManager) (imageRef : String) (auth : Option OCIAuth) :
    List String :=
  ["skopeo", "copy"] ++ (if hasCreds auth then ["--src-creds", credsOf auth] else []) ++
    ["docker://" ++ imageRef, "oci:" ++ filepathJoin m.tempDir "oci-image"]

/-- The arguments of the buildah extraction command (lines 92-93). -/
def buildahMountArgv (m : SimpleOCIManager) : List String :=
  ["buildah", "unshare", "sh", "-c",
    "buildah from oci:" ++ filepathJoin m.tempDir "oci-image" ++ "; buildah mount 1 > " ++
      m.tempDir ++ "/mountpoint"]

/-- Lines 75-114 of `createRootfsWithSkopeoAndBuildah`: what runs between the registration
of the deferred `os.RemoveAll(extractDir)` and the return. -/
def skopeoBuildahBody (env : Env) (m : SimpleOCIManager) (imageRef outputPath : String)
    (auth : Option OCIAuth) : Option String × List Event :=
  let r1 := runCmd env (skopeoArgv m imageRef auth) none
  match r1.1.err with
  | some e => (some ("skopeo pull failed: " ++ e ++ "\nOutput: " ++ r1.1.combined), r1.2)
  | none =>
    let r2 := runCmd env (buildahMountArgv m) none
    match r2.1.err with
    | some e =>
      (some ("buildah mount failed: " ++ e ++ "\nOutput: " ++ r2.1.combined), r1.2 ++ r2.2)
    | none =>
      let r3 := osReadFile env (filepathJoin m.tempDir "mountpoint")
      match r3.1.1 with
      | some e => (some ("failed to read mount point: " ++ e), r1.2 ++ r2.2 ++ r3.2)
      | none =>
        let mountPoint := env.trimSpace r3.1.2
        let r4 := createExt4Image env m mountPoint outputPath
        match r4.1 with
        | some e => (some ("failed to create ext4 image: " ++ e), r1.2 ++ r2.2 ++ r3.2 ++ r4.2)
        | none =>
          let r5 := runCmd env ["buildah", "rm", "1"] none
          (none, r1.2 ++ r2.2 ++ r3.2 ++ r4.2 ++ r5.2)

/-- The method `createRootfsWithSkopeoAndBuildah`. -/
def createRootfsWithSkopeoAndBuildah (env : Env) (m : SimpleOCIManager)
    (imageRef outputPath : String) (auth : Option OCIAuth) : Option String × List Event :=
  let r0 := osMkdirAll env (extractDir m)
  match r0.1 with
  | some e => (some ("failed to create extract directory: " ++ e), r0.2)
  | none =>
    let b := skopeoBuildahBody env m imageRef outputPath auth
    (b.1, r0.2 ++ b.2 ++ (osRemoveAll env (extractDir m)).2)

/-- Lines 144-161 and 193-210, the same for both engines: what runs between the
registration of the deferred `os.RemoveAll(extractDir)` and the return. -/
def exportBody (env : Env) (m : SimpleOCIManager) (engine outputPath : String) :
    Option String × List Event :=
  let tarArgv := ["tar", "-xf", "-", "-C", extractDir m]
  let r2 := startCmd env tarArgv
  match r2.1 with
  | some e => (some ("failed to start tar: " ++ e), r2.2)
  | none =>
    let r3 := runCmd env [engine, "export", containerName env] none
    match r3.1.err with
    | some e => (some (engine ++ " export failed: " ++ e), r2.2 ++ r3.2)
    | none =>
      let r4 := waitCmd env tarArgv
      match r4.1 with
      | some e => (some ("tar extraction failed: " ++ e), r2.2 ++ r3.2 ++ r4.2)
      | none =>
        let r5 := createExt4Image env m (extractDir m) outputPath
        (r5.1, r2.2 ++ r3.2 ++ r4.2 ++ r5.2)

/-- Lines 137-161 and 186-210, the same for both engines: the export of a created
container into the extraction directory and the image build, with the deferred
`os.RemoveAll(extractDir)`. -/
def exportAndBuild (env : Env) (m : SimpleOCIManager) (engine outputPath : String) :
    Option String × List Event :=
  let r1 := osMkdirAll env (extractDir m)
  match r1.1 with
  | some e => (some ("failed to create extract directory: " ++ e), r1.2)
  | none =>
    let b := exportBody env m engine outputPath
    (b.1, r1.2 ++ b.2 ++ (osRemoveAll env (extractDir m)).2)

/-- The arguments of `podman create` (lines 125-131). -/
def podmanCreateArgv (env : Env) (imageRef : String) (auth : Option OCIAuth) : List String :=
  ["podman", "create", "--name", containerName env] ++
    (if hasCreds auth then ["--creds", credsOf auth] else []) ++ [imageRef, "/bin/true"]

/-- Lines 124-161 of `createRootfsWithPodman`: what runs between the registration of the
deferred container removal and its execution. -/
def podmanBody (env : Env) (m : SimpleOCIManager) (imageRef outputPath : String)
    (auth : Option OCIAuth) : Option String × List Event :=
  let r1 := runCmd env (podmanCreateArgv env imageRef auth) none
  match r1.1.err with
  | some e => (some ("podman create failed: " ++ e ++ "\nOutput: " ++ r1.1.combined), r1.2)
  | none =>
    let b := exportAndBuild env m "podman" outputPath
    (b.1, r1.2 ++ b.2)

/-- The method `createRootfsWithPodman`: the deferred container removal runs last. -/
def createRootfsWithPodman (env : Env) (m : SimpleOCIManager) (imageRef outputPath : String)
    (auth : Option OCIAuth) : Option String × List Event :=
  let b := podmanBody env m imageRef outputPath auth
  (b.1, b.2 ++ (runCmd env ["podman", "rm", "-f", containerName env] none).2)

/-- Lines 166-173 of `createRootfsWithDocker`: the optional login, whose failure is only
logged. -/
def dockerLogin (env : Env) (auth : Option OCIAuth) : List Event :=
  match auth with
  | none => []
  | some a =>
    if a.Username != "" && a.Password != "" then
      let r := runCmd env ["docker", "login", "-u", a.Username, "--password-stdin"]
        (some a.Password)
      match r.1.err with
      | some e => r.2 ++ [Event.log "warn" "docker login failed" ["error", e]]
      | none => r.2
    else []

/-- Lines 180-210 of `createRootfsWithDocker`: what runs between the registration of the
deferred container removal and its execution. -/
def dockerBody (env : Env) (m : SimpleOCIManager) (imageRef outputPath : String) :
    Option String × List Event :=
  let r1 := runCmd env ["docker", "create", "--name", containerName env, imageRef,
    "/bin/true"] none
  match r1.1.err with
  | some e => (some ("docker create failed: " ++ e ++ "\nOutput: " ++ r1.1.combined), r1.2)
  | none =>
    let b := exportAndBuild env m "docker" outputPath
    (b.1, r1.2 ++ b.2)

/-- The method `createRootfsWithDocker`: the deferred container removal runs last. -/
def createRootfsWithDocker (env : Env) (m : SimpleOCIManager) (imageRef outputPath : String)
    (auth : Option OCIAuth) : Option String × List Event :=
  let b := dockerBody env m imageRef outputPath
  (b.1, dockerLogin env auth ++ b.2 ++
    (runCmd env ["docker", "rm", "-f", containerName env] none).2)

/-! ## The orchestrator -/

/-- The method `hasCommand`. -/
def hasCommand (env : Env) (cmd : String) : Bool × List Event :=
  (env.lookPath cmd, [Event.lookPath cmd (env.lookPath cmd)])

/-- The probes of the first test of `PullAndCreateRootfs`,
`m.hasCommand("skopeo") && m.hasCommand("buildah")`: the second probe is made only when
the first succeeded. -/
def probeSkopeoBuildah (env : Env) : Bool × List Event :=
  let s := hasCommand env "skopeo"
  if s.1 then
    let b := hasCommand env "buildah"
    (b.1, s.2 ++ b.2)
  else (false, s.2)

/-- The method `PullAndCreateRootfs`. -/
def PullAndCreateRootfs (env : Env) (m : SimpleOCIManager) (imageRef outputPath : String)
    (auth : Option OCIAuth) : Option String × List Event :=
  let l := [Event.log "info" "pulling OCI image and creating rootfs"
    ["image", imageRef, "output", outputPath]]
  let sb := probeSkopeoBuildah env
  if sb.1 then
    let r := createRootfsWithSkopeoAndBuildah env m imageRef outputPath auth
    (r.1, l ++ sb.2 ++ r.2)
  else
    let p := hasCommand env "podman"
    if p.1 then
      let r := createRootfsWithPodman env m imageRef outputPath auth
      (r.1, l ++ sb.2 ++ p.2 ++ r.2)
    else
      let d := hasCommand env "docker"
      if d.1 then
        let r := createRootfsWithDocker env m imageRef outputPath auth
        (r.1, l ++ sb.2 ++ p.2 ++ d.2 ++ r.2)
      else
        (some "no suitable OCI tool found (tried: skopeo+buildah, podman, docker)",
          l ++ sb.2 ++ p.2 ++ d.2)

/-! ## Sample hosts -/

/-- A plain scanner of a leading run of decimal digits, standing for `fmt.Sscanf` with the
verb `%d` on the sample hosts. -/
def scanDigits (s : String) : Except String Int :=
  let ds := s.data.takeWhile Char.isDigit
  if ds = [] then Except.error "expected integer"
  else Except.ok (Int.ofNat (ds.foldl (fun acc c => 10 * acc + (c.toNat - 48)) 0))

/-- A sample host on which every tool is installed and every step succeeds; `du` reports
3,000,000,000 bytes. -/
def hostOk : Env where
  pid := 4242
  lookPath := fun _ => true
  exec := fun argv _ =>
    if argv.head? = some "du" then CmdResult.mk none "3000000000\t/src\n" "3000000000\t/src\n"
    else CmdResult.mk none "" ""
  start := fun _ => none
  wait := fun _ => none
  mkdirAll := fun _ => none
  removeAll := fun _ => none
  readFile := fun _ => (none, "/var/lib/containers/merged\n")
  sscanfD := scanDigits
  trimSpace := String.trim

/-- A sample manager. -/
def mgr : SimpleOCIManager := SimpleOCIManager.mk "/tmp/firecracker-oci-1" "/var/lib/fc"

/-- The sample host on which the process with first argument `tool` exits with status 1 and
the combined output `output`. -/
def hostFailing (tool output : String) : Env :=
  { hostOk with exec := fun a i =>
      if a.head? = some tool then CmdResult.mk (some "exit status 1") "" output
      else hostOk.exec a i }

/-- The sample host on which the file holding the mount point cannot be read. -/
def hostReadFails : Env :=
  { hostOk with readFile := fun _ => (some "open mountpoint: no such file or directory", "") }

/-- The sample host on which only the engine `tool` is on the search path. -/
def hostOnly (tool : String) : Env :=
  { hostOk with lookPath := fun c => c == tool }

/-- The sample host on which `du` measures an empty tree: 0 bytes. -/
def hostEmpty : Env :=
  { hostOk with exec := fun a i =>
      if a.head? = some "du" then CmdResult.mk none "0\t/src\n" "0\t/src\n"
      else hostOk.exec a i }

/-! ## Variations of a host -/

/-- The host `env` with the outcome of the process `argv` replaced by `r`. -/
def setOutcome (env : Env) (argv : List String) (r : CmdResult) : Env :=
  { env with exec := fun a i => if a = argv then r else env.exec a i }

/-- The host `env` on which every process prints the combined output `f argv` instead of
its own; exit errors and standard output are unchanged. -/
def withCombined (env : Env) (f : List String → String) : Env :=
  { env with exec := fun a i => CmdResult.mk (env.exec a i).err (env.exec a i).stdout (f a) }

/-! ## Predicates on events -/

/-- Whether an event is a run of the process `argv`. -/
def isRun (argv : List String) : Event → Bool
  | Event.run a _ _ => a == argv
  | _ => false

/-- Whether an event is a run of `umount` on the given directory. -/
def isUmount (dir : String) : Event → Bool
  | Event.run argv _ _ => argv == ["umount", dir]
  | _ => false

/-- Whether an event is a log line or a probe of the search path: neither runs an external
command nor touches the file system or the mount table. -/
def isProbeOrLog : Event → Bool
  | Event.log _ _ _ => true
  | Event.lookPath _ _ => true
  | _ => false

/-- Whether an event is one the filesystem builder can cause: a warning, the creation of
a directory, or a run of one of its six tools. -/
def builderEvent : Event → Bool
  | Event.log _ _ _ => true
  | Event.mkdirAll _ _ => true
  | Event.run argv _ _ =>
    argv.head? ∈ [some "du", some "fallocate", some "mkfs.ext4", some "mount", some "cp",
      some "umount"]
  | _ => false

/-- Whether an event names the per-call resources by the fixed names of the manager and the
process: directories created or removed are `extractDir m` or `mountDir m`, the file read is
`tempDir/mountpoint`, `tar` unpacks into `extractDir m`, `mount` and `umount` act on
`mountDir m`, and a container created, exported or removed is `1` (buildah) or
`containerName env`. Nothing in it depends on the arguments of a call. -/
def sharedNames (env : Env) (m : SimpleOCIManager) : Event → Bool
  | Event.mkdirAll p _ => p == extractDir m || p == mountDir m
  | Event.removeAll p _ => p == extractDir m
  | Event.readFile p _ _ => p == filepathJoin m.tempDir "mountpoint"
  | Event.start argv _ => argv == ["tar", "-xf", "-", "-C", extractDir m]
  | Event.wait argv _ => argv == ["tar", "-xf", "-", "-C", extractDir m]
  | Event.run argv _ _ =>
    if argv.head? == some "mount" || argv.head? == some "umount" then
      argv.getLast? == some (mountDir m)
    else if argv[1]? == some "rm" then
      argv == ["buildah", "rm", "1"] || argv.getLast? == some (containerName env)
    else if argv[1]? == some "export" then argv.getLast? == some (containerName env)
    else if argv[1]? == some "create" then argv[3]? == some (containerName env)
    else true
  | _ => true

/-! ## The size estimator: theorems -/

/-- An integer in the range of `int64` is not changed by the wrap-around. -/
theorem wrapInt64_of_range (x : Int) (h1 : -(2 ^ 63) ≤ x) (h2 : x < 2 ^ 63) :
    wrapInt64 x = x := by
  unfold wrapInt64
  norm_num at h1 h2 ⊢
  omega

/-- Without overflow, `sizeMB` is the integer formula of line 271 on the size with overhead. -/
theorem sizeMB_eq (S : Int) (h0 : 0 ≤ S) (hfit : S + S / 5 < 2 ^ 63) :
    sizeMB S = ((S + S / 5) / 104857600 + 1) * 100 := by
  have h5 : Int.tdiv S 5 = S / 5 := Int.tdiv_eq_ediv h0 (by norm_num)
  norm_num at hfit
  have ha : addOverhead S = S + S / 5 := by
    unfold addOverhead
    rw [h5]
    apply wrapInt64_of_range <;> norm_num <;> omega
  have hq : Int.tdiv (S + S / 5) (100 * 1024 * 1024) = (S + S / 5) / 104857600 := by
    rw [Int.tdiv_eq_ediv (by omega) (by norm_num)]
    norm_num
  unfold sizeMB
  rw [ha, hq]
  rw [wrapInt64_of_range ((S + S / 5) / 104857600 + 1) (by norm_num; omega) (by norm_num; omega)]
  apply wrapInt64_of_range <;> norm_num <;> omega

/-- When `du` succeeds and its output scans to `S`, the size string is `sizeMB S` followed
by `M`. -/
theorem calculateImageSize_ok (env : Env) (m : SimpleOCIManager) (src : String) (S : Int)
    (hdu : (env.exec ["du", "-sb", src] none).err = none)
    (hscan : env.sscanfD (env.exec ["du", "-sb", src] none).stdout = Except.ok S) :
    (calculateImageSize env m src).1 = Except.ok (sprintfD (sizeMB S) ++ "M") := by
  simp [calculateImageSize, runCmd, hdu, hscan, sizeString]

/-- C2: for a measured size `S ≥ 0` with `S + S / 5` in the range of `int64`,
`calculateImageSize` returns `<n>M` with `n = sizeMB S`, and the capacity `n` MiB is at least
`S * 1.2` bytes and is a multiple of 100 MiB. -/
theorem calculateImageSize_capacity_ge (env : Env) (m : SimpleOCIManager) (src : String)
    (S : Int)
    (hdu : (env.exec ["du", "-sb", src] none).err = none)
    (hscan : env.sscanfD (env.exec ["du", "-sb", src] none).stdout = Except.ok S)
    (h0 : 0 ≤ S) (hfit : S + S / 5 < 2 ^ 63) :
    (calculateImageSize env m src).1 = Except.ok (sprintfD (sizeMB S) ++ "M") ∧
      (S : ℚ) * 1.2 ≤ (sizeMB S : ℚ) * 1048576 ∧
      (104857600 : Int) ∣ sizeMB S * 1048576 := by
  refine ⟨calculateImageSize_ok env m src S hdu hscan, ?_, ?_⟩
  · rw [sizeMB_eq S h0 hfit]
    have h : 6 * S ≤ 5 * (((S + S / 5) / 104857600 + 1) * 100 * 1048576) := by omega
    have hq : ((6 * S : Int) : ℚ) ≤
        ((5 * (((S + S / 5) / 104857600 + 1) * 100 * 1048576) : Int) : ℚ) := by
      exact_mod_cast h
    push_cast at hq
    norm_num
    linarith
  · rw [sizeMB_eq S h0 hfit]
    exact ⟨(S + S / 5) / 104857600 + 1, by ring⟩

/-- C2 at a tree of 3,000,000,000 bytes. -/
theorem calculateImageSize_capacity_ge_witness :
    (calculateImageSize hostOk mgr "/src").1 =
        Except.ok (sprintfD (sizeMB 3000000000) ++ "M") ∧
      ((3000000000 : Int) : ℚ) * 1.2 ≤ (sizeMB 3000000000 : ℚ) * 1048576 ∧
      (104857600 : Int) ∣ sizeMB 3000000000 * 1048576 :=
  calculateImageSize_capacity_ge hostOk mgr "/src" 3000000000 (by rfl) (by rfl)
    (by decide) (by decide)

/-- C3 fails for an empty tree: `S = 0` gives `100M`, and 100 MiB is not strictly less than
`0 * 1.2` bytes plus 100 MiB. -/
theorem calculateImageSize_capacity_not_lt :
    (calculateImageSize hostEmpty mgr "/src").1 = Except.ok "100M" ∧ sizeMB 0 = 100 ∧
      ¬ ((sizeMB 0 : ℚ) * 1048576 < ((0 : Int) : ℚ) * 1.2 + 104857600) := by
  have h : sizeMB 0 = 100 := by decide
  refine ⟨by rfl, h, ?_⟩
  rw [h]
  norm_num

/-- C3 (amended): for a measured size `S ≥ 0` with `S + S / 5` in the range of `int64`, the
capacity `sizeMB S` MiB that `calculateImageSize` returns is at most `S * 1.2` bytes plus
100 MiB. -/
theorem calculateImageSize_capacity_le (env : Env) (m : SimpleOCIManager) (src : String)
    (S : Int)
    (hdu : (env.exec ["du", "-sb", src] none).err = none)
    (hscan : env.sscanfD (env.exec ["du", "-sb", src] none).stdout = Except.ok S)
    (h0 : 0 ≤ S) (hfit : S + S / 5 < 2 ^ 63) :
    (calculateImageSize env m src).1 = Except.ok (sprintfD (sizeMB S) ++ "M") ∧
      (sizeMB S : ℚ) * 1048576 ≤ (S : ℚ) * 1.2 + 104857600 := by
  refine ⟨calculateImageSize_ok env m src S hdu hscan, ?_⟩
  rw [sizeMB_eq S h0 hfit]
  have h : 5 * (((S + S / 5) / 104857600 + 1) * 100 * 1048576) ≤ 6 * S + 5 * 104857600 := by
    omega
  have hq : ((5 * (((S + S / 5) / 104857600 + 1) * 100 * 1048576) : Int) : ℚ) ≤
      ((6 * S + 5 * 104857600 : Int) : ℚ) := by
    exact_mod_cast h
  push_cast at hq
  norm_num
  linarith

/-- C3 (amended) at an empty tree, where the bound is attained. -/
theorem calculateImageSize_capacity_le_witness :
    (calculateImageSize hostEmpty mgr "/src").1 = Except.ok (sprintfD (sizeMB 0) ++ "M") ∧
      (sizeMB 0 : ℚ) * 1048576 ≤ ((0 : Int) : ℚ) * 1.2 + 104857600 :=
  calculateImageSize_capacity_le hostEmpty mgr "/src" 0 (by rfl) (by rfl) (by decide)
    (by decide)

/-- C4 fails: for `sizeBytes = 3000000000` the arithmetic does not give 3700 MiB. -/
theorem sizeString_3000000000_ne_3700M :
    sizeMB 3000000000 ≠ 3700 ∧ sizeString 3000000000 ≠ "3700M" := by
  refine ⟨by decide, by decide⟩

/-- C4 (amended): for `sizeBytes = 3000000000` the arithmetic of `calculateImageSize` gives
exactly 3500 MiB, the size string `3500M`, which is what `calculateImageSize` returns when
`du` reports 3,000,000,000 bytes. -/
theorem sizeString_3000000000 :
    addOverhead 3000000000 = 3600000000 ∧ sizeMB 3000000000 = 3500 ∧
      sizeString 3000000000 = "3500M" ∧
      (calculateImageSize hostOk mgr "/src").1 = Except.ok "3500M" := by
  refine ⟨by decide, by decide, by decide, by rfl⟩

/-! ## The filesystem builder: theorems -/

/-- The trace of `createExt4Image` is the run of `du`, a warning when the measurement
failed (the size is then the default), and the trace of the sized build; its result is the
result of the sized build. -/
theorem createExt4Image_eq (env : Env) (m : SimpleOCIManager) (src out : String) :
    ∃ size w, createExt4Image env m src out =
        ((createExt4ImageSized env m size src out).1,
          Event.run ["du", "-sb", src] none (env.exec ["du", "-sb", src] none) ::
            (w ++ (createExt4ImageSized env m size src out).2)) ∧
      (w = [] ∨ ∃ e, w = [Event.log "warn" "failed to calculate size, using default"
        ["error", e]] ∧ size = defaultRootfsSize) := by
  simp only [createExt4Image, calculateImageSize, runCmd]
  cases h1 : (env.exec ["du", "-sb", src] none).err with
  | some e =>
    exact ⟨defaultRootfsSize, [Event.log "warn" "failed to calculate size, using default"
      ["error", e]], by simp, Or.inr ⟨e, rfl, rfl⟩⟩
  | none =>
    cases h2 : env.sscanfD (env.exec ["du", "-sb", src] none).stdout with
    | error e =>
      exact ⟨defaultRootfsSize, [Event.log "warn" "failed to calculate size, using default"
        ["error", e]], by simp, Or.inr ⟨e, rfl, rfl⟩⟩
    | ok S => exact ⟨sizeString S, [], by simp, Or.inl rfl⟩

/-- After a successful mount the sized build ends with the copy and then the `umount`. -/
theorem sized_unmounts (env : Env) (m : SimpleOCIManager) (size src out : String)
    (r : CmdResult)
    (hm : Event.run ["mount", "-o", "loop", out, mountDir m] none r ∈
      (createExt4ImageSized env m size src out).2)
    (hr : r.err = none) :
    ∃ pre rc ru, (createExt4ImageSized env m size src out).2 =
        pre ++ [Event.run ["cp", "-a", src ++ "/.", mountDir m ++ "/"] none rc,
          Event.run ["umount", mountDir m] none ru] ∧
      Event.run ["mount", "-o", "loop", out, mountDir m] none r ∈ pre ∧
      pre.countP (isUmount (mountDir m)) = 0 ∧
      (createExt4ImageSized env m size src out).1 =
        (match rc.err with
          | some e => some ("failed to copy contents: " ++ e)
          | none => none) := by
  simp only [createExt4ImageSized, runCmd, osMkdirAll] at hm ⊢
  split at hm
  · simp at hm
  · split at hm
    · simp at hm
    · split at hm
      · simp at hm
      · split at hm
        · rename_i e he
          simp at hm
          rw [← hm] at he
          simp [hr] at he
        · rename_i _ h1 _ h2 _ h3 _ h4
          simp only [h1, h2, h3, h4]
          refine ⟨[Event.run ["fallocate", "-l", size, out] none (env.exec ["fallocate", "-l", size, out] none),
            Event.run ["mkfs.ext4", "-F", out] none (env.exec ["mkfs.ext4", "-F", out] none),
            Event.mkdirAll (mountDir m) none,
            Event.run ["mount", "-o", "loop", out, mountDir m] none
              (env.exec ["mount", "-o", "loop", out, mountDir m] none)],
            env.exec ["cp", "-a", src ++ "/.", mountDir m ++ "/"] none,
            env.exec ["umount", mountDir m] none, ?_, ?_, ?_, rfl⟩
          · simp
          · simp at hm ⊢
            exact hm
          · simp [List.countP_cons, isUmount]

/-- C5: whenever the trace of `createExt4Image` holds a successful run of
`mount -o loop outputPath mountDir`, the trace ends with the run of `cp -a` followed by the run
of `umount mountDir`, the mount comes before both, `umount mountDir` is run exactly once, and
the result is the copy error when the copy failed and `nil` when it succeeded. -/
theorem createExt4Image_umount_after_mount (env : Env) (m : SimpleOCIManager)
    (src out : String) (r : CmdResult)
    (hm : Event.run ["mount", "-o", "loop", out, mountDir m] none r ∈
      (createExt4Image env m src out).2)
    (hr : r.err = none) :
    ∃ pre rc ru, (createExt4Image env m src out).2 =
        pre ++ [Event.run ["cp", "-a", src ++ "/.", mountDir m ++ "/"] none rc,
          Event.run ["umount", mountDir m] none ru] ∧
      Event.run ["mount", "-o", "loop", out, mountDir m] none r ∈ pre ∧
      (createExt4Image env m src out).2.countP (isUmount (mountDir m)) = 1 ∧
      (createExt4Image env m src out).1 =
        (match rc.err with
          | some e => some ("failed to copy contents: " ++ e)
          | none => none) := by
  obtain ⟨size, w, heq, hw⟩ := createExt4Image_eq env m src out
  rw [heq] at hm ⊢
  have hm2 : Event.run ["mount", "-o", "loop", out, mountDir m] none r ∈
      (createExt4ImageSized env m size src out).2 := by
    rcases hw with rfl | ⟨e, rfl, _⟩ <;> simpa using hm
  obtain ⟨pre, rc, ru, h1, h2, h3, h4⟩ := sized_unmounts env m size src out r hm2 hr
  refine ⟨Event.run ["du", "-sb", src] none (env.exec ["du", "-sb", src] none) :: (w ++ pre),
    rc, ru, ?_, ?_, ?_, h4⟩
  · simp [h1]
  · simp [h2]
  · simp only [h1]
    rcases hw with rfl | ⟨e, rfl, _⟩ <;>
      simp [List.countP_cons, List.countP_append, isUmount, h3]

/-- C5 on a host where the copy fails after a successful mount. -/
theorem createExt4Image_umount_after_mount_witness :
    ∃ pre rc ru, (createExt4Image (hostFailing "cp" "cp: write error") mgr "/src" "/out.ext4").2 =
        pre ++ [Event.run ["cp", "-a", "/src" ++ "/.", mountDir mgr ++ "/"] none rc,
          Event.run ["umount", mountDir mgr] none ru] ∧
      Event.run ["mount", "-o", "loop", "/out.ext4", mountDir mgr] none (CmdResult.mk none "" "")
        ∈ pre ∧
      (createExt4Image (hostFailing "cp" "cp: write error") mgr "/src" "/out.ext4").2.countP (isUmount (mountDir mgr)) = 1 ∧
      (createExt4Image (hostFailing "cp" "cp: write error") mgr "/src" "/out.ext4").1 =
        (match rc.err with
          | some e => some ("failed to copy contents: " ++ e)
          | none => none) :=
  createExt4Image_umount_after_mount (hostFailing "cp" "cp: write error") mgr "/src" "/out.ext4" (CmdResult.mk none "" "")
    (by decide) rfl

/-- C6: if `du` exits with an error or the scan of its output fails, `calculateImageSize`
returns that error, and `createExt4Image` runs `du`, logs a warning and then does exactly what
the build steps do for the size `1G`, with their result; those steps start with
`fallocate -l 1G outputPath`; and when the remaining steps succeed the call returns `nil`. -/
theorem createExt4Image_default_size (env : Env) (m : SimpleOCIManager) (src out : String)
    (hfail : (∃ e, (env.exec ["du", "-sb", src] none).err = some e) ∨
      (∃ e, env.sscanfD (env.exec ["du", "-sb", src] none).stdout = Except.error e)) :
    (∃ e, (calculateImageSize env m src).1 = Except.error e ∧
      createExt4Image env m src out =
        ((createExt4ImageSized env m "1G" src out).1,
          [Event.run ["du", "-sb", src] none (env.exec ["du", "-sb", src] none),
            Event.log "warn" "failed to calculate size, using default" ["error", e]] ++
            (createExt4ImageSized env m "1G" src out).2)) ∧
    (createExt4ImageSized env m "1G" src out).2.head? =
      some (Event.run ["fallocate", "-l", "1G", out] none
        (env.exec ["fallocate", "-l", "1G", out] none)) ∧
    ((env.exec ["fallocate", "-l", "1G", out] none).err = none →
      (env.exec ["mkfs.ext4", "-F", out] none).err = none →
      env.mkdirAll (mountDir m) = none →
      (env.exec ["mount", "-o", "loop", out, mountDir m] none).err = none →
      (env.exec ["cp", "-a", src ++ "/.", mountDir m ++ "/"] none).err = none →
      (createExt4Image env m src out).1 = none) := by
  have key : ∃ e, (calculateImageSize env m src).1 = Except.error e ∧
      createExt4Image env m src out =
        ((createExt4ImageSized env m "1G" src out).1,
          [Event.run ["du", "-sb", src] none (env.exec ["du", "-sb", src] none),
            Event.log "warn" "failed to calculate size, using default" ["error", e]] ++
            (createExt4ImageSized env m "1G" src out).2) := by
    simp only [createExt4Image, calculateImageSize, runCmd, defaultRootfsSize]
    cases h1 : (env.exec ["du", "-sb", src] none).err with
    | some e => exact ⟨e, rfl, by simp⟩
    | none =>
      cases h2 : env.sscanfD (env.exec ["du", "-sb", src] none).stdout with
      | error e => exact ⟨e, rfl, by simp⟩
      | ok S =>
        rcases hfail with ⟨e, he⟩ | ⟨e, he⟩
        · simp [h1] at he
        · simp [h2] at he
  refine ⟨key, ?_, ?_⟩
  · simp only [createExt4ImageSized, runCmd, osMkdirAll]
    split
    · simp
    · split
      · simp
      · split
        · simp
        · split <;> simp
  · intro h1 h2 h3 h4 h5
    obtain ⟨e, _, heq⟩ := key
    rw [heq]
    simp [createExt4ImageSized, runCmd, osMkdirAll, h1, h2, h3, h4, h5]

/-- C6 on a host where `du` exits with status 1. -/
theorem createExt4Image_default_size_witness :
    (∃ e, (calculateImageSize (hostFailing "du" "du: cannot access") mgr "/src").1 =
        Except.error e ∧
      createExt4Image (hostFailing "du" "du: cannot access") mgr "/src" "/out.ext4" =
        ((createExt4ImageSized (hostFailing "du" "du: cannot access") mgr "1G" "/src"
            "/out.ext4").1,
          [Event.run ["du", "-sb", "/src"] none
              ((hostFailing "du" "du: cannot access").exec ["du", "-sb", "/src"] none),
            Event.log "warn" "failed to calculate size, using default" ["error", e]] ++
            (createExt4ImageSized (hostFailing "du" "du: cannot access") mgr "1G" "/src"
              "/out.ext4").2)) ∧
    (createExt4Image (hostFailing "du" "du: cannot access") mgr "/src" "/out.ext4").1 = none :=
  ⟨(createExt4Image_default_size (hostFailing "du" "du: cannot access") mgr "/src" "/out.ext4"
      (Or.inl ⟨"exit status 1", rfl⟩)).1,
    (createExt4Image_default_size (hostFailing "du" "du: cannot access") mgr "/src" "/out.ext4"
      (Or.inl ⟨"exit status 1", rfl⟩)).2.2 rfl rfl rfl rfl rfl⟩

/-- The result of the sized build does not depend on the combined output of any process. -/
theorem sized_result_withCombined (env : Env) (m : SimpleOCIManager) (size src out : String)
    (f : List String → String) :
    (createExt4ImageSized (withCombined env f) m size src out).1 =
      (createExt4ImageSized env m size src out).1 := by
  simp only [createExt4ImageSized, runCmd, osMkdirAll, withCombined]
  split
  · simp
  · split
    · simp
    · split
      · simp
      · split <;> simp

/-- The size string does not depend on the combined output of any process. -/
theorem calculateImageSize_withCombined (env : Env) (m : SimpleOCIManager) (src : String)
    (f : List String → String) :
    (calculateImageSize (withCombined env f) m src).1 = (calculateImageSize env m src).1 := by
  simp only [calculateImageSize, runCmd, withCombined]
  split
  · simp
  · split <;> simp

/-- The result of `createExt4Image` does not depend on the combined output of any process. -/
theorem createExt4Image_withCombined (env : Env) (m : SimpleOCIManager) (src out : String)
    (f : List String → String) :
    (createExt4Image (withCombined env f) m src out).1 = (createExt4Image env m src out).1 := by
  simp only [createExt4Image]
  rw [calculateImageSize_withCombined]
  split <;> simp [sized_result_withCombined]

/-- A failed step of the sized build is reported as its message followed by the error text. -/
theorem sized_step_failure (env : Env) (m : SimpleOCIManager) (size src out : String)
    (argv : List String) (r : CmdResult) (e : String)
    (hmem : Event.run argv none r ∈ (createExt4ImageSized env m size src out).2)
    (herr : r.err = some e) :
    (argv.head? = some "fallocate" →
      (createExt4ImageSized env m size src out).1 = some ("failed to create image file: " ++ e)) ∧
    (argv.head? = some "mkfs.ext4" →
      (createExt4ImageSized env m size src out).1 = some ("failed to format ext4: " ++ e)) ∧
    (argv.head? = some "mount" →
      (createExt4ImageSized env m size src out).1 = some ("failed to mount image: " ++ e)) ∧
    (argv.head? = some "cp" →
      (createExt4ImageSized env m size src out).1 = some ("failed to copy contents: " ++ e)) := by
  simp only [createExt4ImageSized, runCmd, osMkdirAll] at hmem ⊢
  split at hmem
  · rename_i e1 h1
    simp at hmem
    obtain ⟨rfl, rfl⟩ := hmem
    simp_all
  · split at hmem
    · rename_i _ h1 _ e2 h2
      simp at hmem
      rcases hmem with ⟨rfl, rfl⟩ | ⟨rfl, rfl⟩ <;> simp_all
    · split at hmem
      · rename_i _ h1 _ h2 _ e3 h3
        simp at hmem
        rcases hmem with ⟨rfl, rfl⟩ | ⟨rfl, rfl⟩ <;> simp_all
      · split at hmem
        · rename_i _ h1 _ h2 _ h3 _ e4 h4
          simp at hmem
          rcases hmem with ⟨rfl, rfl⟩ | ⟨rfl, rfl⟩ | ⟨rfl, rfl⟩ <;> simp_all
        · rename_i _ h1 _ h2 _ h3 _ h4
          simp at hmem
          rcases hmem with ⟨rfl, rfl⟩ | ⟨rfl, rfl⟩ | ⟨rfl, rfl⟩ | ⟨rfl, rfl⟩ | ⟨rfl, rfl⟩ <;>
            simp_all

/-- What the code does at a failed step of the filesystem builder: when the run of
`fallocate`, `mkfs.ext4`, `mount` or `cp` in the trace of `createExt4Image` failed with the
error text `e`, the call returns the non-nil error made of the message of that step followed
by `e`; and the error the call returns is the same whatever output the tools printed. -/
theorem createExt4Image_step_failure (env : Env) (m : SimpleOCIManager) (src out : String)
    (argv : List String) (r : CmdResult) (e : String)
    (hmem : Event.run argv none r ∈ (createExt4Image env m src out).2)
    (herr : r.err = some e) :
    ((argv.head? = some "fallocate" →
        (createExt4Image env m src out).1 = some ("failed to create image file: " ++ e)) ∧
      (argv.head? = some "mkfs.ext4" →
        (createExt4Image env m src out).1 = some ("failed to format ext4: " ++ e)) ∧
      (argv.head? = some "mount" →
        (createExt4Image env m src out).1 = some ("failed to mount image: " ++ e)) ∧
      (argv.head? = some "cp" →
        (createExt4Image env m src out).1 = some ("failed to copy contents: " ++ e))) ∧
    ∀ f : List String → String,
      (createExt4Image (withCombined env f) m src out).1 = (createExt4Image env m src out).1 := by
  refine ⟨?_, createExt4Image_withCombined env m src out⟩
  obtain ⟨size, w, heq, hw⟩ := createExt4Image_eq env m src out
  rw [heq] at hmem ⊢
  simp only [List.mem_cons, List.mem_append] at hmem
  rcases hmem with h | h | h
  · simp only [Event.run.injEq] at h
    obtain ⟨rfl, _, _⟩ := h
    simp
  · rcases hw with rfl | ⟨e2, rfl, _⟩ <;> simp at h
  · exact sized_step_failure env m size src out argv r e h herr

/-- The failed-step lemma on a host where the copy exits with status 1. -/
theorem createExt4Image_step_failure_witness :
    (createExt4Image (hostFailing "cp" "cp: write error: No space left on device") mgr "/src"
        "/out.ext4").1 = some ("failed to copy contents: " ++ "exit status 1") ∧
      (createExt4Image (withCombined (hostFailing "cp" "cp: write error: No space left on device")
        (fun _ => "")) mgr "/src" "/out.ext4").1 =
      (createExt4Image (hostFailing "cp" "cp: write error: No space left on device") mgr "/src"
        "/out.ext4").1 :=
  ⟨(createExt4Image_step_failure (hostFailing "cp" "cp: write error: No space left on device")
      mgr "/src" "/out.ext4" ["cp", "-a", "/src/.", "/tmp/firecracker-oci-1/mount/"]
      (CmdResult.mk (some "exit status 1") "" "cp: write error: No space left on device")
      "exit status 1" (by decide) rfl).1.2.2.2 rfl,
    (createExt4Image_step_failure (hostFailing "cp" "cp: write error: No space left on device")
      mgr "/src" "/out.ext4" ["cp", "-a", "/src/.", "/tmp/firecracker-oci-1/mount/"]
      (CmdResult.mk (some "exit status 1") "" "cp: write error: No space left on device")
      "exit status 1" (by decide) rfl).2 (fun _ => "")⟩

/-- C9 is broken by the code: `fallocate` exits with status 1 after printing a message and
`createExt4Image` returns the non-nil error `failed to create image file: exit status 1`,
which does not contain what the tool printed; a failure with another output and the same exit
status gives the same error text. The sibling step `skopeo copy` of the same pipeline does
attach the output of its tool to the error. -/
theorem createExt4Image_error_omits_output :
    (hostFailing "fallocate" "fallocate: No space left on device").exec
        ["fallocate", "-l", "3500M", "/out.ext4"] none =
      CmdResult.mk (some "exit status 1") "" "fallocate: No space left on device" ∧
    (createExt4Image (hostFailing "fallocate" "fallocate: No space left on device") mgr "/src"
      "/out.ext4").1 = some "failed to create image file: exit status 1" ∧
    ¬ ("fallocate: No space left on device".data <:+:
      "failed to create image file: exit status 1".data) ∧
    (createExt4Image (hostFailing "fallocate" "fallocate: Operation not supported") mgr "/src"
      "/out.ext4").1 =
    (createExt4Image (hostFailing "fallocate" "fallocate: No space left on device") mgr "/src"
      "/out.ext4").1 ∧
    (createRootfsWithSkopeoAndBuildah (hostFailing "skopeo" "unauthorized: access denied") mgr
      "alpine" "/out.ext4" none).1 =
      some "skopeo pull failed: exit status 1\nOutput: unauthorized: access denied" := by
  refine ⟨by decide, by decide, by decide, by decide, by decide⟩

/-! ## The orchestrator: theorems -/

/-- `PullAndCreateRootfs` logs, probes the search path, and then is the backend the four
probe results select, or the error when they select none. -/
theorem PullAndCreateRootfs_eq (env : Env) (m : SimpleOCIManager)
    (img out : String) (auth : Option OCIAuth) :
    ∃ probes : List Event, probes.all isProbeOrLog = true ∧
      PullAndCreateRootfs env m img out auth =
        if env.lookPath "skopeo" && env.lookPath "buildah" then
          ((createRootfsWithSkopeoAndBuildah env m img out auth).1,
            probes ++ (createRootfsWithSkopeoAndBuildah env m img out auth).2)
        else if env.lookPath "podman" then
          ((createRootfsWithPodman env m img out auth).1,
            probes ++ (createRootfsWithPodman env m img out auth).2)
        else if env.lookPath "docker" then
          ((createRootfsWithDocker env m img out auth).1,
            probes ++ (createRootfsWithDocker env m img out auth).2)
        else
          (some "no suitable OCI tool found (tried: skopeo+buildah, podman, docker)", probes) := by
  refine ⟨Event.log "info" "pulling OCI image and creating rootfs" ["image", img, "output", out] ::
    Event.lookPath "skopeo" (env.lookPath "skopeo") ::
      ((if env.lookPath "skopeo" then [Event.lookPath "buildah" (env.lookPath "buildah")]
        else []) ++
      (if env.lookPath "skopeo" && env.lookPath "buildah" then []
        else Event.lookPath "podman" (env.lookPath "podman") ::
          (if env.lookPath "podman" then []
            else [Event.lookPath "docker" (env.lookPath "docker")]))), ?_, ?_⟩
  · cases env.lookPath "skopeo" <;> cases env.lookPath "buildah" <;>
      cases env.lookPath "podman" <;> cases env.lookPath "docker" <;> simp [isProbeOrLog]
  · simp only [PullAndCreateRootfs, probeSkopeoBuildah, hasCommand]
    cases env.lookPath "skopeo" <;> cases env.lookPath "buildah" <;>
      cases env.lookPath "podman" <;> cases env.lookPath "docker" <;> simp

/-- C1: the events of `PullAndCreateRootfs` before the backend are only log lines and probes
of the search path, and the call is the skopeo+buildah backend exactly when `skopeo` and
`buildah` are both found, otherwise the podman backend exactly when `podman` is found,
otherwise the docker backend exactly when `docker` is found, and otherwise it runs no backend,
causes no other event and returns the error
`no suitable OCI tool found (tried: skopeo+buildah, podman, docker)`. -/
theorem PullAndCreateRootfs_selects_backend (env : Env) (m : SimpleOCIManager)
    (img out : String) (auth : Option OCIAuth) :
    ∃ probes : List Event, probes.all isProbeOrLog = true ∧
      PullAndCreateRootfs env m img out auth =
        if env.lookPath "skopeo" && env.lookPath "buildah" then
          ((createRootfsWithSkopeoAndBuildah env m img out auth).1,
            probes ++ (createRootfsWithSkopeoAndBuildah env m img out auth).2)
        else if env.lookPath "podman" then
          ((createRootfsWithPodman env m img out auth).1,
            probes ++ (createRootfsWithPodman env m img out auth).2)
        else if env.lookPath "docker" then
          ((createRootfsWithDocker env m img out auth).1,
            probes ++ (createRootfsWithDocker env m img out auth).2)
        else
          (some "no suitable OCI tool found (tried: skopeo+buildah, podman, docker)", probes) :=
  PullAndCreateRootfs_eq env m img out auth

/-! ## Removal of the container: theorems -/

/-- Every event of the sized build is an event of the filesystem builder. -/
theorem createExt4ImageSized_events (env : Env) (m : SimpleOCIManager) (size src out : String) :
    ∀ e ∈ (createExt4ImageSized env m size src out).2, builderEvent e = true := by
  simp only [createExt4ImageSized, runCmd, osMkdirAll]
  split
  · simp [builderEvent]
  · split
    · simp [builderEvent]
    · split
      · simp [builderEvent]
      · split <;> simp [builderEvent]

/-- Every event of `createExt4Image` is an event of the filesystem builder. -/
theorem createExt4Image_events (env : Env) (m : SimpleOCIManager) (src out : String) :
    ∀ e ∈ (createExt4Image env m src out).2, builderEvent e = true := by
  obtain ⟨size, w, heq, hw⟩ := createExt4Image_eq env m src out
  rw [heq]
  intro e he
  simp only [List.mem_cons, List.mem_append] at he
  rcases he with rfl | he | he
  · simp [builderEvent]
  · rcases hw with rfl | ⟨e2, rfl, _⟩
    · simp at he
    · simp at he
      subst he
      simp [builderEvent]
  · exact createExt4ImageSized_events env m size src out e he

/-- A predicate false on the events of the filesystem builder counts none of them. -/
theorem countP_eq_zero_of_builder (p : Event → Bool) (l : List Event)
    (hl : ∀ e ∈ l, builderEvent e = true) (hp : ∀ e, builderEvent e = true → p e = false) :
    l.countP p = 0 := by
  rw [List.countP_eq_zero]
  intro e he
  simp [hp e (hl e he)]

/-- No event of the filesystem builder is the removal of a container. -/
theorem isRun_rm_of_builder (engine name : String) (hne : engine = "podman" ∨ engine = "docker") :
    ∀ e, builderEvent e = true → isRun [engine, "rm", "-f", name] e = false := by
  intro e he
  cases e with
  | run argv i r =>
    simp only [isRun, beq_eq_false_iff_ne, ne_eq]
    rintro rfl
    rcases hne with rfl | rfl <;> simp [builderEvent] at he
  | _ => simp [isRun]

/-- The export and the build never run the removal of the container. -/
theorem exportAndBuild_count (env : Env) (m : SimpleOCIManager) (engine out name : String)
    (hne : engine = "podman" ∨ engine = "docker") :
    (exportAndBuild env m engine out).2.countP (isRun [engine, "rm", "-f", name]) = 0 := by
  have hb := countP_eq_zero_of_builder (isRun [engine, "rm", "-f", name])
    (createExt4Image env m (extractDir m) out).2 (createExt4Image_events env m (extractDir m) out)
    (isRun_rm_of_builder engine name hne)
  simp only [exportAndBuild, exportBody, osMkdirAll, osRemoveAll, startCmd, waitCmd, runCmd]
  split
  · simp [List.countP_cons, isRun]
  · split
    · simp [List.countP_cons, isRun]
    · split
      · simp [List.countP_cons, List.countP_append, isRun]
      · split
        · simp [List.countP_cons, List.countP_append, isRun]
        · simp [List.countP_cons, List.countP_append, isRun, hb]

/-- The size measurement does not depend on the outcome of a process other than `du`. -/
theorem setOutcome_calculateImageSize (env : Env) (m : SimpleOCIManager) (src : String)
    (argv : List String) (r : CmdResult) (h : argv.head? ≠ some "du") :
    calculateImageSize (setOutcome env argv r) m src = calculateImageSize env m src := by
  have h1 : ¬ (["du", "-sb", src] = argv) := by
    rintro rfl
    simp at h
  simp [calculateImageSize, runCmd, setOutcome, h1]

/-- The sized build does not depend on the outcome of the removal of a container. -/
theorem setOutcome_sized (env : Env) (m : SimpleOCIManager) (size src out : String)
    (engine name : String) (r : CmdResult) (hne : engine = "podman" ∨ engine = "docker") :
    createExt4ImageSized (setOutcome env [engine, "rm", "-f", name] r) m size src out =
      createExt4ImageSized env m size src out := by
  rcases hne with rfl | rfl <;>
    simp [createExt4ImageSized, runCmd, osMkdirAll, setOutcome]

/-- The build does not depend on the outcome of the removal of a container. -/
theorem setOutcome_createExt4Image (env : Env) (m : SimpleOCIManager) (src out : String)
    (engine name : String) (r : CmdResult) (hne : engine = "podman" ∨ engine = "docker") :
    createExt4Image (setOutcome env [engine, "rm", "-f", name] r) m src out =
      createExt4Image env m src out := by
  have h : ([engine, "rm", "-f", name] : List String).head? ≠ some "du" := by
    rcases hne with rfl | rfl <;> simp
  simp only [createExt4Image, setOutcome_calculateImageSize env m src _ r h,
    setOutcome_sized env m _ src out engine name r hne]

/-- The export and the build do not depend on the outcome of the removal of the container. -/
theorem setOutcome_exportAndBuild (env : Env) (m : SimpleOCIManager) (engine out : String)
    (r : CmdResult) (hne : engine = "podman" ∨ engine = "docker") :
    exportAndBuild (setOutcome env [engine, "rm", "-f", containerName env] r) m engine out =
      exportAndBuild env m engine out := by
  have hc := setOutcome_createExt4Image env m (extractDir m) out engine (containerName env) r hne
  simp only [exportAndBuild, exportBody, hc]
  simp [osMkdirAll, osRemoveAll, startCmd, waitCmd, runCmd, setOutcome, containerName]

/-- Before its deferred call the podman backend never runs the removal of the container. -/
theorem podmanBody_count (env : Env) (m : SimpleOCIManager) (img out : String)
    (auth : Option OCIAuth) :
    (podmanBody env m img out auth).2.countP
      (isRun ["podman", "rm", "-f", containerName env]) = 0 := by
  have hb := exportAndBuild_count env m "podman" out (containerName env) (Or.inl rfl)
  simp only [podmanBody, runCmd, podmanCreateArgv]
  split
  · simp [List.countP_cons, isRun]
  · simp [List.countP_cons, List.countP_append, isRun, hb]

/-- The docker login never runs the removal of the container. -/
theorem dockerLogin_count (env : Env) (auth : Option OCIAuth) :
    (dockerLogin env auth).countP (isRun ["docker", "rm", "-f", containerName env]) = 0 := by
  cases auth with
  | none => simp [dockerLogin]
  | some a =>
    simp only [dockerLogin, runCmd]
    split
    · split <;> simp [List.countP_cons, isRun]
    · simp

/-- Before its deferred call the docker backend never runs the removal of the container. -/
theorem dockerBody_count (env : Env) (m : SimpleOCIManager) (img out : String) :
    (dockerBody env m img out).2.countP
      (isRun ["docker", "rm", "-f", containerName env]) = 0 := by
  have hb := exportAndBuild_count env m "docker" out (containerName env) (Or.inr rfl)
  simp only [dockerBody, runCmd]
  split
  · simp [List.countP_cons, isRun]
  · simp [List.countP_cons, List.countP_append, isRun, hb]

/-- What the podman backend does before its deferred call does not depend on the outcome
of the removal of the container. -/
theorem setOutcome_podmanBody (env : Env) (m : SimpleOCIManager) (img out : String)
    (auth : Option OCIAuth) (r : CmdResult) :
    podmanBody (setOutcome env ["podman", "rm", "-f", containerName env] r) m img out auth =
      podmanBody env m img out auth := by
  have hc := setOutcome_exportAndBuild env m "podman" out r (Or.inl rfl)
  simp only [podmanBody, hc]
  simp [runCmd, setOutcome, podmanCreateArgv, containerName]

/-- What the docker backend does before its deferred call does not depend on the outcome
of the removal of the container. -/
theorem setOutcome_dockerBody (env : Env) (m : SimpleOCIManager) (img out : String)
    (r : CmdResult) :
    dockerBody (setOutcome env ["docker", "rm", "-f", containerName env] r) m img out =
      dockerBody env m img out := by
  have hc := setOutcome_exportAndBuild env m "docker" out r (Or.inr rfl)
  simp only [dockerBody, hc]
  simp [runCmd, setOutcome, containerName]

/-- C8: whatever the outcomes of the steps, `createRootfsWithPodman` runs
`podman rm -f firecracker-extract-<pid>` exactly once, as its last event, and returns the same
error or `nil` when the outcome of that removal is replaced by any other; and so does
`createRootfsWithDocker` with `docker rm -f firecracker-extract-<pid>`. -/
theorem container_removed_once (env : Env) (m : SimpleOCIManager) (img out : String)
    (auth : Option OCIAuth) (r : CmdResult) :
    ((createRootfsWithPodman env m img out auth).2.countP
        (isRun ["podman", "rm", "-f", containerName env]) = 1 ∧
      (createRootfsWithPodman env m img out auth).2.getLast? =
        some (Event.run ["podman", "rm", "-f", containerName env] none
          (env.exec ["podman", "rm", "-f", containerName env] none)) ∧
      (createRootfsWithPodman (setOutcome env ["podman", "rm", "-f", containerName env] r)
        m img out auth).1 = (createRootfsWithPodman env m img out auth).1) ∧
    ((createRootfsWithDocker env m img out auth).2.countP
        (isRun ["docker", "rm", "-f", containerName env]) = 1 ∧
      (createRootfsWithDocker env m img out auth).2.getLast? =
        some (Event.run ["docker", "rm", "-f", containerName env] none
          (env.exec ["docker", "rm", "-f", containerName env] none)) ∧
      (createRootfsWithDocker (setOutcome env ["docker", "rm", "-f", containerName env] r)
        m img out auth).1 = (createRootfsWithDocker env m img out auth).1) := by
  refine ⟨⟨?_, ?_, ?_⟩, ?_, ?_, ?_⟩
  · simp [createRootfsWithPodman, runCmd, List.countP_append, List.countP_cons, isRun,
      podmanBody_count]
  · simp [createRootfsWithPodman, runCmd]
  · simp only [createRootfsWithPodman, setOutcome_podmanBody]
  · simp [createRootfsWithDocker, runCmd, List.countP_append, List.countP_cons, isRun,
      dockerBody_count, dockerLogin_count]
  · simp [createRootfsWithDocker, runCmd]
  · simp only [createRootfsWithDocker, setOutcome_dockerBody]

/-- C7 is broken by the code: on a host where the buildah container was instantiated and
reading the mount point file fails, and on a host where the image allocation fails,
`createRootfsWithSkopeoAndBuildah` returns the error without running `buildah rm 1`; the removal
is run once when the call succeeds. -/
theorem skopeoBuildah_failure_skips_removal :
    (Event.run (buildahMountArgv mgr) none (CmdResult.mk none "" "") ∈
        (createRootfsWithSkopeoAndBuildah hostReadFails mgr "alpine" "/out.ext4" none).2 ∧
      (createRootfsWithSkopeoAndBuildah hostReadFails mgr "alpine" "/out.ext4" none).1 =
        some "failed to read mount point: open mountpoint: no such file or directory" ∧
      (createRootfsWithSkopeoAndBuildah hostReadFails mgr "alpine" "/out.ext4" none).2.countP
        (isRun ["buildah", "rm", "1"]) = 0) ∧
    (Event.run (buildahMountArgv mgr) none (CmdResult.mk none "" "") ∈
        (createRootfsWithSkopeoAndBuildah (hostFailing "fallocate" "") mgr "alpine" "/out.ext4"
          none).2 ∧
      (createRootfsWithSkopeoAndBuildah (hostFailing "fallocate" "") mgr "alpine" "/out.ext4"
        none).1 =
        some "failed to create ext4 image: failed to create image file: exit status 1" ∧
      (createRootfsWithSkopeoAndBuildah (hostFailing "fallocate" "") mgr "alpine" "/out.ext4"
        none).2.countP (isRun ["buildah", "rm", "1"]) = 0) ∧
    ((createRootfsWithSkopeoAndBuildah hostOk mgr "alpine" "/out.ext4" none).1 = none ∧
      (createRootfsWithSkopeoAndBuildah hostOk mgr "alpine" "/out.ext4" none).2.countP
        (isRun ["buildah", "rm", "1"]) = 1) := by
  refine ⟨⟨by decide, by decide, by decide⟩, ⟨by decide, by decide, by decide⟩,
    by decide, by decide⟩

/-! ## Names of the per-call resources: theorems -/

/-- The sized build uses the fixed names. -/
theorem sized_sharedNames (env : Env) (m : SimpleOCIManager) (size src out : String) :
    (createExt4ImageSized env m size src out).2.all (sharedNames env m) = true := by
  simp only [createExt4ImageSized, runCmd, osMkdirAll]
  repeat' split
  all_goals simp [sharedNames]

/-- The build uses the fixed names. -/
theorem createExt4Image_sharedNames (env : Env) (m : SimpleOCIManager) (src out : String) :
    (createExt4Image env m src out).2.all (sharedNames env m) = true := by
  obtain ⟨size, w, heq, hw⟩ := createExt4Image_eq env m src out
  have hb := sized_sharedNames env m size src out
  rw [heq]
  rcases hw with rfl | ⟨e2, rfl, _⟩
  · simp only [List.all_cons, List.all_append, List.all_nil, hb]
    simp [sharedNames]
  · simp only [List.all_cons, List.all_append, List.all_nil, hb]
    simp [sharedNames]

/-- The export and the build use the fixed names. -/
theorem exportAndBuild_sharedNames (env : Env) (m : SimpleOCIManager) (engine out : String)
    (hne : engine = "podman" ∨ engine = "docker") :
    (exportAndBuild env m engine out).2.all (sharedNames env m) = true := by
  have hb := createExt4Image_sharedNames env m (extractDir m) out
  simp only [exportAndBuild, exportBody, osMkdirAll, osRemoveAll, startCmd, waitCmd, runCmd]
  rcases hne with rfl | rfl
  all_goals
    repeat' split
    all_goals simp only [List.all_cons, List.all_append, List.all_nil, hb]
    all_goals simp [sharedNames]

/-- The skopeo+buildah backend uses the fixed names. -/
theorem skopeoBuildah_sharedNames (env : Env) (m : SimpleOCIManager) (img out : String)
    (auth : Option OCIAuth) :
    (createRootfsWithSkopeoAndBuildah env m img out auth).2.all (sharedNames env m) = true := by
  have hb := createExt4Image_sharedNames env m
    (env.trimSpace (env.readFile (filepathJoin m.tempDir "mountpoint")).2) out
  have hs : sharedNames env m (Event.run (skopeoArgv m img auth) none
      (env.exec (skopeoArgv m img auth) none)) = true := by
    cases h : hasCreds auth <;> simp [sharedNames, skopeoArgv, h]
  have hm : sharedNames env m (Event.run (buildahMountArgv m) none
      (env.exec (buildahMountArgv m) none)) = true := by
    simp [sharedNames, buildahMountArgv]
  simp only [createRootfsWithSkopeoAndBuildah, skopeoBuildahBody, osMkdirAll, osRemoveAll,
    osReadFile, runCmd]
  repeat' split
  all_goals simp only [List.all_cons, List.all_append, List.all_nil, hb, hs, hm]
  all_goals simp [sharedNames]

/-- The podman backend uses the fixed names. -/
theorem podman_sharedNames (env : Env) (m : SimpleOCIManager) (img out : String)
    (auth : Option OCIAuth) :
    (createRootfsWithPodman env m img out auth).2.all (sharedNames env m) = true := by
  have hb := exportAndBuild_sharedNames env m "podman" out (Or.inl rfl)
  have hc : sharedNames env m (Event.run (podmanCreateArgv env img auth) none
      (env.exec (podmanCreateArgv env img auth) none)) = true := by
    cases h : hasCreds auth <;> simp [sharedNames, podmanCreateArgv, h]
  simp only [createRootfsWithPodman, podmanBody, runCmd]
  repeat' split
  all_goals simp only [List.all_cons, List.all_append, List.all_nil, hb, hc]
  all_goals simp [sharedNames]

/-- The docker login uses no per-call resource. -/
theorem dockerLogin_sharedNames (env : Env) (m : SimpleOCIManager) (auth : Option OCIAuth) :
    (dockerLogin env auth).all (sharedNames env m) = true := by
  cases auth with
  | none => simp [dockerLogin]
  | some a =>
    simp only [dockerLogin, runCmd]
    repeat' split
    all_goals simp [sharedNames]

/-- The docker backend uses the fixed names. -/
theorem docker_sharedNames (env : Env) (m : SimpleOCIManager) (img out : String)
    (auth : Option OCIAuth) :
    (createRootfsWithDocker env m img out auth).2.all (sharedNames env m) = true := by
  have hb := exportAndBuild_sharedNames env m "docker" out (Or.inr rfl)
  have hl := dockerLogin_sharedNames env m auth
  simp only [createRootfsWithDocker, dockerBody, runCmd]
  repeat' split
  all_goals simp only [List.all_cons, List.all_append, List.all_nil, hb, hl]
  all_goals simp [sharedNames]

/-- Log lines and probes use no per-call resource. -/
theorem probes_sharedNames (env : Env) (m : SimpleOCIManager) (l : List Event)
    (h : l.all isProbeOrLog = true) : l.all (sharedNames env m) = true := by
  rw [List.all_eq_true] at h ⊢
  intro e he
  have h1 := h e he
  cases e <;> simp [isProbeOrLog] at h1 <;> simp [sharedNames]

/-- Every call uses the fixed names. -/
theorem PullAndCreateRootfs_sharedNames (env : Env) (m : SimpleOCIManager) (img out : String)
    (auth : Option OCIAuth) :
    (PullAndCreateRootfs env m img out auth).2.all (sharedNames env m) = true := by
  obtain ⟨probes, hp, heq⟩ := PullAndCreateRootfs_eq env m img out auth
  have hpr := probes_sharedNames env m probes hp
  rw [heq]
  repeat' split
  all_goals
    simp only [List.all_append, hpr, skopeoBuildah_sharedNames, podman_sharedNames,
      docker_sharedNames, Bool.and_self]

/-- A successful sized build created the mount directory. -/
theorem sized_success_dirs (env : Env) (m : SimpleOCIManager) (size src out : String)
    (h : (createExt4ImageSized env m size src out).1 = none) :
    Event.mkdirAll (mountDir m) none ∈ (createExt4ImageSized env m size src out).2 := by
  simp only [createExt4ImageSized, runCmd, osMkdirAll] at h ⊢
  repeat' split at h
  all_goals simp_all

/-- A successful build created the mount directory. -/
theorem createExt4Image_success_dirs (env : Env) (m : SimpleOCIManager) (src out : String)
    (h : (createExt4Image env m src out).1 = none) :
    Event.mkdirAll (mountDir m) none ∈ (createExt4Image env m src out).2 := by
  obtain ⟨size, w, heq, _⟩ := createExt4Image_eq env m src out
  rw [heq] at h ⊢
  have := sized_success_dirs env m size src out h
  simp [this]

/-- A successful export and build created the extraction and the mount directory. -/
theorem exportAndBuild_success_dirs (env : Env) (m : SimpleOCIManager) (engine out : String)
    (h : (exportAndBuild env m engine out).1 = none) :
    Event.mkdirAll (extractDir m) none ∈ (exportAndBuild env m engine out).2 ∧
      Event.mkdirAll (mountDir m) none ∈ (exportAndBuild env m engine out).2 := by
  simp only [exportAndBuild, exportBody, osMkdirAll, osRemoveAll, startCmd, waitCmd, runCmd]
    at h ⊢
  repeat' split at h
  all_goals first
    | (simp at h; done)
    | (rename_i h1 _ h2 _ h3 _ h4
       have hd := createExt4Image_success_dirs env m (extractDir m) out h
       simp [h1, h2, h3, h4, hd])

/-- A successful skopeo+buildah backend created both directories. -/
theorem skopeoBuildah_success_dirs (env : Env) (m : SimpleOCIManager) (img out : String)
    (auth : Option OCIAuth)
    (h : (createRootfsWithSkopeoAndBuildah env m img out auth).1 = none) :
    Event.mkdirAll (extractDir m) none ∈ (createRootfsWithSkopeoAndBuildah env m img out auth).2 ∧
      Event.mkdirAll (mountDir m) none ∈
        (createRootfsWithSkopeoAndBuildah env m img out auth).2 := by
  simp only [createRootfsWithSkopeoAndBuildah, skopeoBuildahBody, osMkdirAll, osRemoveAll,
    osReadFile, runCmd] at h ⊢
  repeat' split at h
  all_goals first
    | (simp at h; done)
    | (rename_i h1 _ h2 _ h3 _ h4 _ h5
       have hd := createExt4Image_success_dirs env m _ out h5
       simp [h1, h2, h3, h4, h5, hd])

/-- A successful podman backend created both directories. -/
theorem podman_success_dirs (env : Env) (m : SimpleOCIManager) (img out : String)
    (auth : Option OCIAuth) (h : (createRootfsWithPodman env m img out auth).1 = none) :
    Event.mkdirAll (extractDir m) none ∈ (createRootfsWithPodman env m img out auth).2 ∧
      Event.mkdirAll (mountDir m) none ∈ (createRootfsWithPodman env m img out auth).2 := by
  simp only [createRootfsWithPodman, podmanBody, runCmd] at h ⊢
  split at h
  · simp at h
  · rename_i _ h1
    have hd := exportAndBuild_success_dirs env m "podman" out h
    simp [h1, hd]

/-- A successful docker backend created both directories. -/
theorem docker_success_dirs (env : Env) (m : SimpleOCIManager) (img out : String)
    (auth : Option OCIAuth) (h : (createRootfsWithDocker env m img out auth).1 = none) :
    Event.mkdirAll (extractDir m) none ∈ (createRootfsWithDocker env m img out auth).2 ∧
      Event.mkdirAll (mountDir m) none ∈ (createRootfsWithDocker env m img out auth).2 := by
  simp only [createRootfsWithDocker, dockerBody, runCmd] at h ⊢
  split at h
  · simp at h
  · rename_i _ h1
    have hd := exportAndBuild_success_dirs env m "docker" out h
    simp [h1, hd]

/-- A successful call created both directories. -/
theorem PullAndCreateRootfs_success_dirs (env : Env) (m : SimpleOCIManager) (img out : String)
    (auth : Option OCIAuth) (h : (PullAndCreateRootfs env m img out auth).1 = none) :
    Event.mkdirAll (extractDir m) none ∈ (PullAndCreateRootfs env m img out auth).2 ∧
      Event.mkdirAll (mountDir m) none ∈ (PullAndCreateRootfs env m img out auth).2 := by
  obtain ⟨probes, _, heq⟩ := PullAndCreateRootfs_eq env m img out auth
  rw [heq] at h ⊢
  by_cases h1 : (env.lookPath "skopeo" && env.lookPath "buildah") = true
  · rw [if_pos h1] at h ⊢
    have := skopeoBuildah_success_dirs env m img out auth h
    simp [this]
  · rw [if_neg h1] at h ⊢
    by_cases h2 : env.lookPath "podman" = true
    · rw [if_pos h2] at h ⊢
      have := podman_success_dirs env m img out auth h
      simp [this]
    · rw [if_neg h2] at h ⊢
      by_cases h3 : env.lookPath "docker" = true
      · rw [if_pos h3] at h ⊢
        have := docker_success_dirs env m img out auth h
        simp [this]
      · rw [if_neg h3] at h
        simp at h

/-- C10 fails: two calls on one manager in one process, for different images and output
paths, create the same extraction directory and the same mount directory, read the same mount
point file and remove the same container, `1` with buildah and `firecracker-extract-4242` with
podman. -/
theorem calls_share_names :
    (Event.mkdirAll "/tmp/firecracker-oci-1/extract" none ∈
        (PullAndCreateRootfs hostOk mgr "alpine:3" "/a.ext4" none).2 ∧
      Event.mkdirAll "/tmp/firecracker-oci-1/extract" none ∈
        (PullAndCreateRootfs hostOk mgr "debian:12" "/b.ext4" none).2) ∧
    (Event.mkdirAll "/tmp/firecracker-oci-1/mount" none ∈
        (PullAndCreateRootfs hostOk mgr "alpine:3" "/a.ext4" none).2 ∧
      Event.mkdirAll "/tmp/firecracker-oci-1/mount" none ∈
        (PullAndCreateRootfs hostOk mgr "debian:12" "/b.ext4" none).2) ∧
    (Event.readFile "/tmp/firecracker-oci-1/mountpoint" none "/var/lib/containers/merged\n" ∈
        (PullAndCreateRootfs hostOk mgr "alpine:3" "/a.ext4" none).2 ∧
      Event.readFile "/tmp/firecracker-oci-1/mountpoint" none "/var/lib/containers/merged\n" ∈
        (PullAndCreateRootfs hostOk mgr "debian:12" "/b.ext4" none).2) ∧
    (Event.run ["buildah", "rm", "1"] none (CmdResult.mk none "" "") ∈
        (PullAndCreateRootfs hostOk mgr "alpine:3" "/a.ext4" none).2 ∧
      Event.run ["buildah", "rm", "1"] none (CmdResult.mk none "" "") ∈
        (PullAndCreateRootfs hostOk mgr "debian:12" "/b.ext4" none).2) ∧
    (Event.run ["podman", "rm", "-f", "firecracker-extract-4242"] none (CmdResult.mk none "" "") ∈
        (PullAndCreateRootfs (hostOnly "podman") mgr "alpine:3" "/a.ext4" none).2 ∧
      Event.run ["podman", "rm", "-f", "firecracker-extract-4242"] none
          (CmdResult.mk none "" "") ∈
        (PullAndCreateRootfs (hostOnly "podman") mgr "debian:12" "/b.ext4" none).2) := by
  refine ⟨⟨by decide, by decide⟩, ⟨by decide, by decide⟩, ⟨by decide, by decide⟩,
    ⟨by decide, by decide⟩, by decide, by decide⟩

/-- C10 (amended): for any two calls on one manager in one process, whatever their
arguments, every event of either call names the per-call resources by the fixed names
`tempDir/extract`, `tempDir/mount`, `tempDir/mountpoint` and the container `1` or
`firecracker-extract-<pid>`, and each call that succeeds has created `tempDir/extract` and
`tempDir/mount`: the resources are not namespaced per call. -/
theorem calls_use_fixed_names (env : Env) (m : SimpleOCIManager) (img1 out1 : String)
    (auth1 : Option OCIAuth) (img2 out2 : String) (auth2 : Option OCIAuth) :
    ((PullAndCreateRootfs env m img1 out1 auth1).2.all (sharedNames env m) = true ∧
      (PullAndCreateRootfs env m img2 out2 auth2).2.all (sharedNames env m) = true) ∧
    ((PullAndCreateRootfs env m img1 out1 auth1).1 = none →
      (PullAndCreateRootfs env m img2 out2 auth2).1 = none →
      (Event.mkdirAll (extractDir m) none ∈ (PullAndCreateRootfs env m img1 out1 auth1).2 ∧
        Event.mkdirAll (extractDir m) none ∈ (PullAndCreateRootfs env m img2 out2 auth2).2) ∧
      (Event.mkdirAll (mountDir m) none ∈ (PullAndCreateRootfs env m img1 out1 auth1).2 ∧
        Event.mkdirAll (mountDir m) none ∈ (PullAndCreateRootfs env m img2 out2 auth2).2)) :=
  ⟨⟨PullAndCreateRootfs_sharedNames env m img1 out1 auth1,
      PullAndCreateRootfs_sharedNames env m img2 out2 auth2⟩,
    fun h1 h2 =>
      ⟨⟨(PullAndCreateRootfs_success_dirs env m img1 out1 auth1 h1).1,
          (PullAndCreateRootfs_success_dirs env m img2 out2 auth2 h2).1⟩,
        ⟨(PullAndCreateRootfs_success_dirs env m img1 out1 auth1 h1).2,
          (PullAndCreateRootfs_success_dirs env m img2 out2 auth2 h2).2⟩⟩⟩

/-- C10 (amended) for two successful calls with the podman backend. -/
theorem calls_use_fixed_names_witness :
    (Event.mkdirAll (extractDir mgr) none ∈
        (PullAndCreateRootfs (hostOnly "podman") mgr "alpine:3" "/a.ext4" none).2 ∧
      Event.mkdirAll (extractDir mgr) none ∈
        (PullAndCreateRootfs (hostOnly "podman") mgr "debian:12" "/b.ext4" none).2) ∧
    (Event.mkdirAll (mountDir mgr) none ∈
        (PullAndCreateRootfs (hostOnly "podman") mgr "alpine:3" "/a.ext4" none).2 ∧
      Event.mkdirAll (mountDir mgr) none ∈
        (PullAndCreateRootfs (hostOnly "podman") mgr "debian:12" "/b.ext4" none).2) :=
  (calls_use_fixed_names (hostOnly "podman") mgr "alpine:3" "/a.ext4" none "debian:12" "/b.ext4"
    none).2 (by decide) (by decide)

end Firevm
